import Mathlib

/-!
Verification of the InNoHassle-RoomsBot dialog layer.

Shallow embedding of the three source files:
- src/bot/dialogs/task_view.py (task viewer/editor dialog)
- src/bot/dialogs/roomless.py (roomless welcome dialog)
- src/bot/start_message.py (startup routing handler)

The remote API client is modelled as a record of pure fallible functions
(`ApiClient`); dispatcher functions additionally return the list of remote
calls they performed, so that "no mutation" and "called exactly once"
properties can be stated as facts about the call trace.  Python exceptions
are modelled with `Except PyError`; the Python `None` value returned by a
function that falls through without a `return` statement is modelled with
`Option`.
-/

set_option autoImplicit false

deriving instance DecidableEq for Except

/-- A date-time value as produced by Python's
`datetime.strptime(text, "%d.%m.%Y %H:%M")`: year, month, day, hour, minute
(seconds are always zero for this format and are omitted). -/
structure DateTime where
  year : Nat
  month : Nat
  day : Nat
  hour : Nat
  minute : Nat
  deriving DecidableEq, Repr

/-- Splits a list of characters on a separator character (the separator is
dropped; empty segments are kept), mirroring how the fixed-format date string
is cut at its literal separators. -/
def splitOnChar (sep : Char) : List Char → List (List Char)
  | [] => [[]]
  | c :: cs =>
    let rest := splitOnChar sep cs
    if c = sep then [] :: rest
    else
      match rest with
      | [] => [[c]]
      | r :: rs => (c :: r) :: rs

/-- The numeric value of a list of decimal digit characters. -/
def digitsVal (cs : List Char) : Nat :=
  cs.foldl (fun a c => a * 10 + (c.toNat - 48)) 0

/-- Parses a non-empty all-ASCII-digit character list to its value,
mirroring both the digit groups of the strptime regex and Python's
`int(s)` on a decimal string. -/
def digitsToNat? (cs : List Char) : Option Nat :=
  if !cs.isEmpty && cs.all Char.isDigit then some (digitsVal cs) else none

/-- Gregorian leap-year test, as used by Python's `datetime`. -/
def isLeapYear (y : Nat) : Bool :=
  (y % 4 = 0 && y % 100 ≠ 0) || y % 400 = 0

/-- Number of days in a month, as enforced by Python's `datetime`
constructor. -/
def daysInMonth (y m : Nat) : Nat :=
  if m = 2 then (if isLeapYear y then 29 else 28)
  else if m = 4 ∨ m = 6 ∨ m = 9 ∨ m = 11 then 30
  else 31

/-- Embedding of `parse_datetime` (task_view.py): Python
`datetime.strptime(text, "%d.%m.%Y %H:%M")`.  The field widths and value
ranges follow CPython's `_strptime` pattern for this format (day and month:
one or two digits, values 1-31 and 1-12; year: exactly four digits; hour:
one or two digits, 0-23; minute: one or two digits, 0-59), followed by the
`datetime` constructor's calendar check (day within the month's length,
year at least 1).  A failure models the `ValueError` that strptime raises. -/
def parse_datetime (text : String) : Except Unit DateTime :=
  match splitOnChar ' ' text.data with
  | [datePart, timePart] =>
    match splitOnChar '.' datePart, splitOnChar ':' timePart with
    | [ds, ms, ys], [hs, mins] =>
      match digitsToNat? ds, digitsToNat? ms, digitsToNat? ys,
          digitsToNat? hs, digitsToNat? mins with
      | some dv, some mv, some yv, some hv, some minv =>
        if ds.length ≤ 2 ∧ 1 ≤ dv ∧ dv ≤ 31
            ∧ ms.length ≤ 2 ∧ 1 ≤ mv ∧ mv ≤ 12
            ∧ ys.length = 4 ∧ 1 ≤ yv
            ∧ hs.length ≤ 2 ∧ hv ≤ 23
            ∧ mins.length ≤ 2 ∧ minv ≤ 59
            ∧ dv ≤ daysInMonth yv mv
        then .ok ⟨yv, mv, dv, hv, minv⟩
        else .error ()
      | _, _, _, _, _ => .error ()
    | _, _ => .error ()
  | _ => .error ()

/-- Embedding of `MainWindowConsts.start_date_filter` (task_view.py).
The Python function is annotated `-> bool` but only the `except ValueError`
branch has a `return` statement; when `parse_datetime` succeeds the function
falls through and returns Python `None`.  The fall-through is modelled as
`none`, the explicit `return False` as `some false`. -/
def start_date_filter (text : String) : Option Bool :=
  match parse_datetime text with
  | .ok _ => none
  | .error _ => some false

/-- Python truthiness of a `bool | None` value, as applied by the prompt
dialog to the value returned by a filter. -/
def pyTruthyOpt : Option Bool → Bool
  | none => false
  | some b => b

/-- Python `str.isdecimal` restricted to ASCII: non-empty and all decimal
digits. -/
def pyIsdecimal (s : String) : Bool :=
  !s.data.isEmpty && s.data.all Char.isDigit

/-- Embedding of `MainWindowConsts.period_filter` (task_view.py):
Python `s.isdecimal() and int(s) > 0`. -/
def period_filter (s : String) : Bool :=
  pyIsdecimal s && decide (0 < digitsVal s.data)

/-- A user as returned by the remote API (only the fields this layer reads). -/
structure UserInfo where
  id : Nat
  fullname : String
  deriving DecidableEq, Repr

/-- Modelled from the spec: the task snapshot returned by the remote
getTaskInfo call (the schema module src/api/schemas/method_output_schemas.py
is not among the sources).  Fields are those the dialog layer reads: name,
description, start timestamp, period, and the optional order id consulted by
the loader. -/
structure TaskInfoResponse where
  name : String
  description : String
  start_date : DateTime
  period : Nat
  order_id : Option Nat
  deriving DecidableEq, Repr

/-- Modelled from the spec: the order snapshot returned by the remote
getOrderInfo call; carries the list of users (executors). -/
structure OrderInfoResponse where
  users : List UserInfo
  deriving DecidableEq, Repr

/-- Modelled from the spec: the room snapshot returned by the remote
getRoomInfo call: identifier and name. -/
structure RoomInfo where
  id : Nat
  name : String
  deriving DecidableEq, Repr

/-- Modelled from the spec: the request body of the remote modify-task call
(the schema module src/api/schemas/method_input_schemas.py is not among the
sources).  It carries the task id and at most one field to change.  The spec
states the period field is sent "as integer"; the schema layer coerces the
validated decimal-string result to its integer value, which is why the field
is a number here. -/
structure ModifyTaskBody where
  id : Nat
  name : Option String
  description : Option String
  start_date : Option DateTime
  period : Option Nat
  deriving DecidableEq, Repr

/-- The single failure the remote client surfaces (a generic RuntimeError). -/
inductive RemoteError
  | runtimeError
  deriving DecidableEq, Repr

/-- The remote API client, modelled as a record of pure fallible functions.
Determinism of the fields models the "remote API returns the same responses"
hypothesis of the idempotence property. -/
structure ApiClient where
  create_user : Nat → Except RemoteError Unit
  get_room_info : Nat → Except RemoteError RoomInfo
  create_room : String → Nat → Except RemoteError Nat
  get_task_info : Nat → Nat → Except RemoteError TaskInfoResponse
  get_order_info : Nat → Nat → Except RemoteError OrderInfoResponse
  modify_task : ModifyTaskBody → Nat → Except RemoteError Unit
  delete_task : Nat → Nat → Except RemoteError Unit

/-- One remote call, as recorded in a dispatcher's call trace. -/
inductive RemoteCall
  | createUser (user_id : Nat)
  | getRoomInfo (user_id : Nat)
  | createRoom (name : String) (user_id : Nat)
  | getTaskInfo (task_id : Nat) (user_id : Nat)
  | getOrderInfo (order_id : Nat) (user_id : Nat)
  | modifyTask (body : ModifyTaskBody) (user_id : Nat)
  | deleteTask (task_id : Nat) (user_id : Nat)
  deriving DecidableEq, Repr

/-- A Python exception escaping a handler. -/
inductive PyError
  | keyError
  | remoteError
  | valueError
  | typeError
  deriving DecidableEq, Repr

/-- The task-view dialog's per-conversation data (manager.dialog_data).
The task and executors entries are absent before the first load; the outer
option models key presence, and for executors the inner option models the
Python None stored when the task has no order. -/
structure DialogData where
  task_id : Nat
  task : Option TaskInfoResponse
  executors : Option (Option (List UserInfo))
  deriving DecidableEq, Repr

/-- Embedding of `Loader.load_task_info` (task_view.py): fetch the task
snapshot, store it, then either store executors = None when the task has no
order id, or fetch the order info and store its users.  Returns the updated
dialog data and the trace of remote calls; a failing remote call propagates
as an error. -/
def load_task_info (api : ApiClient) (user_id : Nat) (d : DialogData) :
    Except PyError (DialogData × List RemoteCall) :=
  match api.get_task_info d.task_id user_id with
  | .error _ => .error .remoteError
  | .ok task_data =>
    match task_data.order_id with
    | none =>
      .ok ({ d with task := some task_data, executors := some none },
        [.getTaskInfo d.task_id user_id])
    | some oid =>
      match api.get_order_info oid user_id with
      | .error _ => .error .remoteError
      | .ok order_data =>
        .ok ({ d with
                task := some task_data
                executors := some (some order_data.users) },
          [.getTaskInfo d.task_id user_id, .getOrderInfo oid user_id])

/-- The start payload delivered with a sub-interaction result: either not a
dict (the dispatchers return immediately), or a dict that may or may not hold
an "intent" entry (reading a missing entry raises KeyError in Python). -/
inductive StartData
  | notDict
  | dict (intent : Option String)
  deriving DecidableEq, Repr

/-- A sub-interaction result value as typed in task_view.py:
`bool | str | None`. -/
inductive ResultValue
  | boolVal (b : Bool)
  | strVal (s : String)
  | noneVal
  deriving DecidableEq, Repr

/-- Python truthiness of a `bool | str | None` result, as tested by
`if result:` in the delete branch. -/
def pyTruthy : ResultValue → Bool
  | .boolVal b => b
  | .strVal s => !s.data.isEmpty
  | .noneVal => false

/-- What the task-view dispatcher does with the interface at the end:
terminate the dialog (manager.done), re-display the window (manager.show),
or neither (the early return on a non-dict payload). -/
inductive TVOutcome
  | done
  | shown
  | nothing
  deriving DecidableEq, Repr

namespace TaskView

/-- Remote modify followed by the synchronous reload, as performed by every
edit branch of the task-view dispatcher; the trace records the modify call
followed by the reload's calls, and the final outcome is the re-display at
the end of the handler. -/
def modify_and_reload (api : ApiClient) (user_id : Nat) (body : ModifyTaskBody)
    (d : DialogData) : Except PyError (DialogData × List RemoteCall × TVOutcome) :=
  match api.modify_task body user_id with
  | .error _ => .error .remoteError
  | .ok _ =>
    match load_task_info api user_id d with
    | .error e => .error e
    | .ok (d2, calls) => .ok (d2, .modifyTask body user_id :: calls, .shown)

/-- Embedding of `Events.on_process_result` (task_view.py).  A non-dict
payload returns immediately; a dict payload without an "intent" entry raises
KeyError; otherwise the handler branches on the intent string, with any
unrecognised intent falling through to the final manager.show.  A boolean
result reaching an edit branch is modelled as the type error the schema
layer or strptime would raise on it. -/
def on_process_result (api : ApiClient) (user_id : Nat) (start_data : StartData)
    (result : ResultValue) (d : DialogData) :
    Except PyError (DialogData × List RemoteCall × TVOutcome) :=
  match start_data with
  | .notDict => .ok (d, [], .nothing)
  | .dict none => .error .keyError
  | .dict (some intent) =>
    if intent = "delete" then
      if pyTruthy result then
        match api.delete_task d.task_id user_id with
        | .error _ => .error .remoteError
        | .ok _ => .ok (d, [.deleteTask d.task_id user_id], .done)
      else .ok (d, [], .shown)
    else if intent = "edit_name" then
      match result with
      | .noneVal => .ok (d, [], .shown)
      | .strVal s => modify_and_reload api user_id ⟨d.task_id, some s, none, none, none⟩ d
      | .boolVal _ => .error .typeError
    else if intent = "edit_description" then
      match result with
      | .noneVal => .ok (d, [], .shown)
      | .strVal s => modify_and_reload api user_id ⟨d.task_id, none, some s, none, none⟩ d
      | .boolVal _ => .error .typeError
    else if intent = "edit_start_date" then
      match result with
      | .noneVal => .ok (d, [], .shown)
      | .strVal s =>
        match parse_datetime s with
        | .error _ => .error .valueError
        | .ok dt => modify_and_reload api user_id ⟨d.task_id, none, none, some dt, none⟩ d
      | .boolVal _ => .error .typeError
    else if intent = "edit_period" then
      match result with
      | .noneVal => .ok (d, [], .shown)
      | .strVal s =>
        match digitsToNat? s.data with
        | some n => modify_and_reload api user_id ⟨d.task_id, none, none, none, some n⟩ d
        | none => .error .typeError
      | .boolVal _ => .error .typeError
    else .ok (d, [], .shown)

end TaskView

/-- What the roomless dispatcher does with the interface at the end: start
the room dialog (with or without resetting the stack), re-display the
welcome window, or nothing (non-dict payload or unrecognised intent). -/
inductive RLOutcome
  | startedRoom (room_id : Nat) (name : String) (reset_stack : Bool)
  | shown
  | nothing
  deriving DecidableEq, Repr

namespace Roomless

/-- Embedding of `Events.on_process_result` (roomless.py).  A non-dict
payload returns immediately; a dict payload without an "intent" entry raises
KeyError; for intent "create_room" with a non-None result the remote room is
created and the room dialog is started with the new room id and the given
name, resetting the stack; with a None result the welcome window is shown
again; any other intent falls off the end of the handler. -/
def on_process_result (api : ApiClient) (user_id : Nat) (start_data : StartData)
    (result : Option String) : Except PyError (List RemoteCall × RLOutcome) :=
  match start_data with
  | .notDict => .ok ([], .nothing)
  | .dict none => .error .keyError
  | .dict (some intent) =>
    if intent = "create_room" then
      match result with
      | some name =>
        match api.create_room name user_id with
        | .error _ => .error .remoteError
        | .ok room_id => .ok ([.createRoom name user_id], .startedRoom room_id name true)
      | none => .ok ([], .shown)
    else .ok ([], .nothing)

end Roomless

/-- A dialog started by the startup handler. -/
inductive StartedDialog
  | room (room_id : Nat) (name : String) (reset_stack : Bool)
  | roomless (reset_stack : Bool)
  deriving DecidableEq, Repr

/-- Embedding of `start_message_handler` (start_message.py): create the user,
swallowing any RuntimeError; then fetch the room info and start the room
dialog with the fetched id and name (resetting the stack), or, when the
fetch fails, start the roomless welcome dialog (resetting the stack).
Returns the remote-call trace and the list of dialogs started.  The handler
is total: both remote calls have their failures caught. -/
def start_message_handler (api : ApiClient) (user_id : Nat) :
    List RemoteCall × List StartedDialog :=
  let _ := match api.create_user user_id with
    | .ok _ => ()
    | .error _ => ()
  match api.get_room_info user_id with
  | .ok info =>
    ([.createUser user_id, .getRoomInfo user_id], [.room info.id info.name true])
  | .error _ =>
    ([.createUser user_id, .getRoomInfo user_id], [.roomless true])

/-! ### Concrete fixtures used by witnesses -/

/-- A concrete task snapshot with no order. -/
def task0 : TaskInfoResponse :=
  ⟨"Groceries", "weekly shopping", ⟨2024, 1, 1, 10, 0⟩, 7, none⟩

/-- A concrete task snapshot with an order. -/
def task1 : TaskInfoResponse :=
  ⟨"Dishes", "", ⟨2024, 2, 29, 23, 59⟩, 1, some 3⟩

/-- A concrete API client on which every call succeeds; get_task_info
returns a task without an order. -/
def apiOk : ApiClient :=
  ⟨fun _ => .ok (), fun _ => .ok ⟨1, "Room"⟩, fun _ _ => .ok 5,
   fun _ _ => .ok task0, fun _ _ => .ok ⟨[⟨2, "Alice"⟩]⟩,
   fun _ _ => .ok (), fun _ _ => .ok ()⟩

/-- A concrete API client whose task carries an order id. -/
def apiOrder : ApiClient :=
  ⟨fun _ => .ok (), fun _ => .ok ⟨1, "Room"⟩, fun _ _ => .ok 5,
   fun _ _ => .ok task1, fun _ _ => .ok ⟨[⟨2, "Alice"⟩]⟩,
   fun _ _ => .ok (), fun _ _ => .ok ()⟩

/-- apiOk with a failing user-creation call. -/
def apiUserFail : ApiClient :=
  { apiOk with create_user := fun _ => .error .runtimeError }

/-- apiOk with a failing room-info fetch. -/
def apiRoomFail : ApiClient :=
  { apiOk with get_room_info := fun _ => .error .runtimeError }

/-- Dialog data as set up by on_start before the first load. -/
def dialog0 : DialogData := ⟨1, none, none⟩

/-- Dialog data after a load against apiOk. -/
def dialogLoaded : DialogData := ⟨1, some task0, some none⟩

/-! ### Claim theorems -/

/-- C1 counterexample: a result arriving with a dict start payload that is
missing the intent entry does not no-op: both dispatchers raise KeyError on
the payload lookup, so the claim as stated (silent no-op also for a missing
intent tag) is false. -/
theorem C1_missing_intent_counterexample :
    TaskView.on_process_result apiOk 0 (.dict none) .noneVal dialog0
      = .error .keyError ∧
    Roomless.on_process_result apiOk 0 (.dict none) none = .error .keyError := by
  decide

/-- C1 (amended): for every result arrival whose start payload carries an
intent tag outside the known set, both dispatchers perform no remote call and
do not crash: the task-view dispatcher silently re-displays its window and
the roomless dispatcher silently does nothing. -/
theorem C1_unknown_intent_noop (api : ApiClient) (u : Nat) (intent : String)
    (result : ResultValue) (rres : Option String) (d : DialogData)
    (h1 : intent ≠ "delete") (h2 : intent ≠ "edit_name")
    (h3 : intent ≠ "edit_description") (h4 : intent ≠ "edit_start_date")
    (h5 : intent ≠ "edit_period") (h6 : intent ≠ "create_room") :
    TaskView.on_process_result api u (.dict (some intent)) result d
      = .ok (d, [], .shown) ∧
    Roomless.on_process_result api u (.dict (some intent)) rres
      = .ok ([], .nothing) := by
  constructor
  · simp [TaskView.on_process_result, h1, h2, h3, h4, h5]
  · simp [Roomless.on_process_result, h6]

/-- C1 witness: the concrete unknown tag "invitations" (issued by a start
widget in roomless.py and never handled by either dispatcher) is a silent
no-op in both dispatchers. -/
theorem C1_unknown_intent_noop_witness :
    ("invitations" : String) ≠ "delete" ∧ ("invitations" : String) ≠ "create_room" ∧
    TaskView.on_process_result apiOk 0 (.dict (some "invitations")) .noneVal dialog0
      = .ok (dialog0, [], .shown) ∧
    Roomless.on_process_result apiOk 0 (.dict (some "invitations")) none
      = .ok ([], .nothing) :=
  ⟨by decide, by decide,
    (C1_unknown_intent_noop apiOk 0 "invitations" .noneVal none dialog0
      (by decide) (by decide) (by decide) (by decide) (by decide) (by decide)).1,
    (C1_unknown_intent_noop apiOk 0 "invitations" .noneVal none dialog0
      (by decide) (by decide) (by decide) (by decide) (by decide) (by decide)).2⟩

/-- C2: the start-date filter is not the boolean-valued acceptance predicate
the claim describes.  On a text that parses in the fixed format (here
"01.01.2024 10:00") the Python function falls through without a return and
yields None, which is falsy, so valid dates are rejected instead of accepted;
only the rejection half holds: an invalid calendar date such as
"31.02.2024 10:00" yields False. -/
theorem C2_start_date_filter_bug :
    parse_datetime "01.01.2024 10:00" = .ok ⟨2024, 1, 1, 10, 0⟩ ∧
    start_date_filter "01.01.2024 10:00" = none ∧
    pyTruthyOpt (start_date_filter "01.01.2024 10:00") = false ∧
    start_date_filter "31.02.2024 10:00" = some false ∧
    pyTruthyOpt (start_date_filter "31.02.2024 10:00") = false := by
  decide

/-- C3: on intent "delete" with result true the dispatcher calls the remote
delete exactly once with the current task id and terminates the dialog with
no further remote call and no snapshot refresh; with result false or the
cancellation sentinel None it makes no remote call at all and re-displays the
current window on unchanged dialog data. -/
theorem C3_delete_dispatch (api : ApiClient) (u : Nat) (d : DialogData)
    (h : api.delete_task d.task_id u = .ok ()) :
    TaskView.on_process_result api u (.dict (some "delete")) (.boolVal true) d
      = .ok (d, [.deleteTask d.task_id u], .done) ∧
    TaskView.on_process_result api u (.dict (some "delete")) (.boolVal false) d
      = .ok (d, [], .shown) ∧
    TaskView.on_process_result api u (.dict (some "delete")) .noneVal d
      = .ok (d, [], .shown) := by
  refine ⟨?_, ?_, ?_⟩ <;> simp [TaskView.on_process_result, pyTruthy, h]

/-- C3 witness: the delete branches evaluated on the concrete fixture. -/
theorem C3_delete_dispatch_witness :
    apiOk.delete_task dialog0.task_id 0 = .ok () ∧
    TaskView.on_process_result apiOk 0 (.dict (some "delete")) (.boolVal true) dialog0
      = .ok (dialog0, [.deleteTask dialog0.task_id 0], .done) :=
  ⟨rfl, (C3_delete_dispatch apiOk 0 dialog0 rfl).1⟩

/-- C4: on intent "create_room" with a non-None text the roomless dispatcher
creates the remote room with that text as name for the calling user and
starts the room-view dialog carrying the returned room id and that name,
resetting the whole navigation stack; with the cancellation sentinel None it
performs no remote call and re-displays the welcome window. -/
theorem C4_create_room_dispatch (api : ApiClient) (u : Nat) (s : String)
    (rid : Nat) (h : api.create_room s u = .ok rid) :
    Roomless.on_process_result api u (.dict (some "create_room")) (some s)
      = .ok ([.createRoom s u], .startedRoom rid s true) ∧
    Roomless.on_process_result api u (.dict (some "create_room")) none
      = .ok ([], .shown) := by
  constructor <;> simp [Roomless.on_process_result, h]

/-- C4 witness: creating a room named "Team Alpha" on the concrete fixture. -/
theorem C4_create_room_dispatch_witness :
    apiOk.create_room "Team Alpha" 0 = .ok 5 ∧
    Roomless.on_process_result apiOk 0 (.dict (some "create_room")) (some "Team Alpha")
      = .ok ([.createRoom "Team Alpha" 0], .startedRoom 5 "Team Alpha" true) :=
  ⟨rfl, (C4_create_room_dispatch apiOk 0 "Team Alpha" 5 rfl).1⟩

/-- C5: for each of the four edit intents, a non-None (and, for the date and
period branches, well-formed) text result leads the dispatcher to issue the
corresponding single-field remote mutation and then synchronously reload the
snapshot: the dialog data it leaves behind is exactly the one produced by
load_task_info, the call trace is the mutation followed by the reload's
fetches, and only then is the window re-displayed. -/
theorem C5_edit_then_refresh (api : ApiClient) (u : Nat) (d d2 : DialogData)
    (calls : List RemoteCall) (s1 s2 s3 s4 : String) (dt : DateTime) (n : Nat)
    (hmod : ∀ b, api.modify_task b u = .ok ())
    (hload : load_task_info api u d = .ok (d2, calls))
    (hdt : parse_datetime s3 = .ok dt)
    (hn : digitsToNat? s4.data = some n) :
    TaskView.on_process_result api u (.dict (some "edit_name")) (.strVal s1) d
      = .ok (d2, .modifyTask ⟨d.task_id, some s1, none, none, none⟩ u :: calls, .shown) ∧
    TaskView.on_process_result api u (.dict (some "edit_description")) (.strVal s2) d
      = .ok (d2, .modifyTask ⟨d.task_id, none, some s2, none, none⟩ u :: calls, .shown) ∧
    TaskView.on_process_result api u (.dict (some "edit_start_date")) (.strVal s3) d
      = .ok (d2, .modifyTask ⟨d.task_id, none, none, some dt, none⟩ u :: calls, .shown) ∧
    TaskView.on_process_result api u (.dict (some "edit_period")) (.strVal s4) d
      = .ok (d2, .modifyTask ⟨d.task_id, none, none, none, some n⟩ u :: calls, .shown) := by
  refine ⟨?_, ?_, ?_, ?_⟩ <;>
    simp [TaskView.on_process_result, TaskView.modify_and_reload, hmod, hload, hdt, hn]

/-- C5 witness: the four edit branches evaluated on the concrete fixture
(name "Groceries", description "weekly", date "01.01.2024 10:00",
period "7"). -/
theorem C5_edit_then_refresh_witness :
    load_task_info apiOk 0 dialog0 = .ok (dialogLoaded, [.getTaskInfo 1 0]) ∧
    parse_datetime "01.01.2024 10:00" = .ok ⟨2024, 1, 1, 10, 0⟩ ∧
    digitsToNat? "7".data = some 7 ∧
    TaskView.on_process_result apiOk 0 (.dict (some "edit_name")) (.strVal "Groceries") dialog0
      = .ok (dialogLoaded,
          [.modifyTask ⟨1, some "Groceries", none, none, none⟩ 0, .getTaskInfo 1 0], .shown) ∧
    TaskView.on_process_result apiOk 0 (.dict (some "edit_period")) (.strVal "7") dialog0
      = .ok (dialogLoaded,
          [.modifyTask ⟨1, none, none, none, some 7⟩ 0, .getTaskInfo 1 0], .shown) :=
  ⟨rfl, by decide, by decide,
    (C5_edit_then_refresh apiOk 0 dialog0 dialogLoaded [.getTaskInfo 1 0]
      "Groceries" "weekly" "01.01.2024 10:00" "7" ⟨2024, 1, 1, 10, 0⟩ 7
      (fun _ => rfl) rfl (by decide) (by decide)).1,
    (C5_edit_then_refresh apiOk 0 dialog0 dialogLoaded [.getTaskInfo 1 0]
      "Groceries" "weekly" "01.01.2024 10:00" "7" ⟨2024, 1, 1, 10, 0⟩ 7
      (fun _ => rfl) rfl (by decide) (by decide)).2.2.2⟩

/-- A decimal string in the sense of the period filter converts to its
numeric value. -/
theorem digitsToNat_of_isdecimal (s : String) (h : pyIsdecimal s = true) :
    digitsToNat? s.data = some (digitsVal s.data) := by
  unfold pyIsdecimal at h
  simp [digitsToNat?, h]

/-- C6: on intent "edit_period" with a text result accepted by the period
filter, the mutation the dispatcher issues carries the period field as the
integer value of that text. -/
theorem C6_period_sent_as_integer (api : ApiClient) (u : Nat) (d d2 : DialogData)
    (calls : List RemoteCall) (s : String)
    (hs : period_filter s = true)
    (hmod : ∀ b, api.modify_task b u = .ok ())
    (hload : load_task_info api u d = .ok (d2, calls)) :
    TaskView.on_process_result api u (.dict (some "edit_period")) (.strVal s) d
      = .ok (d2,
          .modifyTask ⟨d.task_id, none, none, none, some (digitsVal s.data)⟩ u :: calls,
          .shown) := by
  have hdec : pyIsdecimal s = true := by
    unfold period_filter at hs
    simp only [Bool.and_eq_true] at hs
    exact hs.1
  have hn := digitsToNat_of_isdecimal s hdec
  simp [TaskView.on_process_result, TaskView.modify_and_reload, hmod, hload, hn]

/-- C6 witness: the validated period string "7" is sent as the number 7. -/
theorem C6_period_sent_as_integer_witness :
    period_filter "7" = true ∧
    TaskView.on_process_result apiOk 0 (.dict (some "edit_period")) (.strVal "7") dialog0
      = .ok (dialogLoaded,
          [.modifyTask ⟨1, none, none, none, some 7⟩ 0, .getTaskInfo 1 0], .shown) :=
  ⟨by decide,
    C6_period_sent_as_integer apiOk 0 dialog0 dialogLoaded [.getTaskInfo 1 0] "7"
      (by decide) (fun _ => rfl) rfl⟩

/-- C7: the period filter accepts a string exactly when it is non-empty,
consists of decimal digits only, and its integer value is strictly positive;
in particular "0" is rejected. -/
theorem C7_period_filter_spec (s : String) :
    (period_filter s = true ↔
      s.data ≠ [] ∧ (∀ c ∈ s.data, c.isDigit = true) ∧ 0 < digitsVal s.data) ∧
    period_filter "0" = false := by
  refine ⟨?_, by decide⟩
  unfold period_filter pyIsdecimal
  simp [List.all_eq_true, List.isEmpty_iff, and_assoc]

/-- C8: the startup handler swallows a user-creation failure (its outcome
does not depend on the create-user result at all), it starts exactly one
dialog on every path, a failing room-info fetch routes to the roomless
welcome dialog with a stack reset, and a successful fetch routes to the room
dialog with the fetched id and name, also with a stack reset. -/
theorem C8_startup_error_handling (api : ApiClient) (u : Nat)
    (f g : Nat → Except RemoteError Unit) :
    (start_message_handler { api with create_user := f } u).2
      = (start_message_handler { api with create_user := g } u).2 ∧
    (start_message_handler api u).2.length = 1 ∧
    (∀ e, api.get_room_info u = .error e →
      (start_message_handler api u).2 = [.roomless true]) ∧
    (∀ info, api.get_room_info u = .ok info →
      (start_message_handler api u).2 = [.room info.id info.name true]) := by
  refine ⟨?_, ?_, ?_, ?_⟩
  · cases h : api.get_room_info u <;> simp [start_message_handler, h]
  · cases h : api.get_room_info u <;> simp [start_message_handler, h]
  · intro e he; simp [start_message_handler, he]
  · intro info hi; simp [start_message_handler, hi]

/-- C8 witness: with a failing user creation and a failing room-info fetch
the handler still starts exactly the roomless welcome dialog. -/
theorem C8_startup_error_handling_witness :
    apiRoomFail.get_room_info 0 = .error .runtimeError ∧
    (start_message_handler apiRoomFail 0).2 = [.roomless true] ∧
    (start_message_handler apiRoomFail 0).2.length = 1 ∧
    (start_message_handler { apiRoomFail with create_user := fun _ => .error .runtimeError } 0).2
      = (start_message_handler { apiRoomFail with create_user := fun _ => .ok () } 0).2 :=
  ⟨rfl,
    (C8_startup_error_handling apiRoomFail 0 (fun _ => .ok ()) (fun _ => .ok ())).2.2.1
      .runtimeError rfl,
    (C8_startup_error_handling apiRoomFail 0 (fun _ => .ok ()) (fun _ => .ok ())).2.1,
    (C8_startup_error_handling apiRoomFail 0 (fun _ => .error .runtimeError)
      (fun _ => .ok ())).1⟩

/-- C9: the snapshot refresh is idempotent: if a load succeeds and yields
dialog data d2 with some call trace, then running the load again from d2
(the remote API being deterministic, i.e. unchanged) succeeds and yields the
same d2 and the same trace. -/
theorem C9_refresh_idempotent (api : ApiClient) (u : Nat) (d d2 : DialogData)
    (calls : List RemoteCall)
    (h : load_task_info api u d = .ok (d2, calls)) :
    load_task_info api u d2 = .ok (d2, calls) := by
  simp only [load_task_info] at h ⊢
  cases hti : api.get_task_info d.task_id u with
  | error e => simp [hti] at h
  | ok td =>
    cases hoid : td.order_id with
    | none =>
      simp only [hti, hoid, Except.ok.injEq, Prod.mk.injEq] at h
      obtain ⟨rfl, rfl⟩ := h
      simp [hti, hoid]
    | some oid =>
      cases hord : api.get_order_info oid u with
      | error e => simp [hti, hoid, hord] at h
      | ok od =>
        simp only [hti, hoid, hord, Except.ok.injEq, Prod.mk.injEq] at h
        obtain ⟨rfl, rfl⟩ := h
        simp [hti, hoid, hord]

/-- C9 witness: the load evaluated twice on the concrete fixture. -/
theorem C9_refresh_idempotent_witness :
    load_task_info apiOk 0 dialog0 = .ok (dialogLoaded, [.getTaskInfo 1 0]) ∧
    load_task_info apiOk 0 dialogLoaded = .ok (dialogLoaded, [.getTaskInfo 1 0]) :=
  ⟨rfl, C9_refresh_idempotent apiOk 0 dialog0 dialogLoaded [.getTaskInfo 1 0] rfl⟩

/-- C10: after a successful load, the stored snapshot is the freshly fetched
task, the task id entry is untouched, and either the task has no order id, in
which case the executors entry holds None and the trace shows that no second
remote call was made, or it has one, in which case the order info was fetched
for it and the executors entry holds exactly the users it returned. -/
theorem C10_executors_iff_order (api : ApiClient) (u : Nat) (d d2 : DialogData)
    (calls : List RemoteCall)
    (h : load_task_info api u d = .ok (d2, calls)) :
    ∃ td, api.get_task_info d.task_id u = .ok td ∧ d2.task = some td ∧
      d2.task_id = d.task_id ∧
      ((td.order_id = none ∧ d2.executors = some none ∧
          calls = [.getTaskInfo d.task_id u]) ∨
        (∃ oid od, td.order_id = some oid ∧ api.get_order_info oid u = .ok od ∧
          d2.executors = some (some od.users) ∧
          calls = [.getTaskInfo d.task_id u, .getOrderInfo oid u])) := by
  simp only [load_task_info] at h
  cases hti : api.get_task_info d.task_id u with
  | error e => simp [hti] at h
  | ok td =>
    refine ⟨td, rfl, ?_⟩
    cases hoid : td.order_id with
    | none =>
      simp only [hti, hoid, Except.ok.injEq, Prod.mk.injEq] at h
      obtain ⟨rfl, rfl⟩ := h
      exact ⟨rfl, rfl, Or.inl ⟨rfl, rfl, rfl⟩⟩
    | some oid =>
      cases hord : api.get_order_info oid u with
      | error e => simp [hti, hoid, hord] at h
      | ok od =>
        simp only [hti, hoid, hord, Except.ok.injEq, Prod.mk.injEq] at h
        obtain ⟨rfl, rfl⟩ := h
        exact ⟨rfl, rfl, Or.inr ⟨oid, od, rfl, hord, rfl, rfl⟩⟩

/-- C10 witness: the load evaluated on the fixture whose task carries an
order id. -/
theorem C10_executors_iff_order_witness :
    load_task_info apiOrder 0 dialog0
      = .ok (⟨1, some task1, some (some [⟨2, "Alice"⟩])⟩,
          [.getTaskInfo 1 0, .getOrderInfo 3 0]) ∧
    (∃ td, apiOrder.get_task_info dialog0.task_id 0 = .ok td ∧
      (⟨1, some task1, some (some [⟨2, "Alice"⟩])⟩ : DialogData).task = some td ∧
      (⟨1, some task1, some (some [⟨2, "Alice"⟩])⟩ : DialogData).task_id = dialog0.task_id ∧
      ((td.order_id = none ∧
          (⟨1, some task1, some (some [⟨2, "Alice"⟩])⟩ : DialogData).executors = some none ∧
          [RemoteCall.getTaskInfo 1 0, RemoteCall.getOrderInfo 3 0]
            = [.getTaskInfo dialog0.task_id 0]) ∨
        (∃ oid od, td.order_id = some oid ∧ apiOrder.get_order_info oid 0 = .ok od ∧
          (⟨1, some task1, some (some [⟨2, "Alice"⟩])⟩ : DialogData).executors
            = some (some od.users) ∧
          [RemoteCall.getTaskInfo 1 0, RemoteCall.getOrderInfo 3 0]
            = [.getTaskInfo dialog0.task_id 0, .getOrderInfo oid 0]))) :=
  ⟨by decide,
    C10_executors_iff_order apiOrder 0 dialog0
      ⟨1, some task1, some (some [⟨2, "Alice"⟩])⟩
      [.getTaskInfo 1 0, .getOrderInfo 3 0] (by decide)⟩

/-- Fidelity checks for the embedded strptime and period filter at assorted
boundary inputs: leap day accepted, 29 February of a non-leap year rejected,
unpadded fields accepted, missing time part and non-dates rejected, empty
and non-numeric period strings rejected. -/
theorem parse_datetime_fidelity :
    parse_datetime "29.02.2024 23:59" = .ok ⟨2024, 2, 29, 23, 59⟩ ∧
    parse_datetime "29.02.2023 10:00" = .error () ∧
    parse_datetime "1.1.2024 1:5" = .ok ⟨2024, 1, 1, 1, 5⟩ ∧
    parse_datetime "01.01.2024" = .error () ∧
    parse_datetime "garbage" = .error () ∧
    period_filter "" = false ∧
    period_filter "12a" = false := by decide
